import Mathlib

/-!
# cubetest: the compressed-texture loader and the cubemap assembler

A shallow embedding of `load_teximage` and `load_cubemap` from `src/main.cc`.

* A file is the list of bytes `fread` can deliver from it; a file that `fopen`
  cannot open is `none`.
* Every externally visible action (stdio calls, `new[]`/`delete[]`, writes to
  `stderr`, OpenGL calls) is appended to a trace of `Event`s, in program order.
* `uint16_t`/`uint32_t`/`unsigned int` values are naturals below `2^16`/`2^32`;
  `int` values are integers, and the conversion of a 32-bit unsigned value to
  `int` is the two's complement one. It is performed by the assignments
  `tex->width = hdr.width`, `tex->height = hdr.height`, and by passing the
  `unsigned int tex.size` for the `GLsizei imageSize` parameter of
  `glCompressedTexImage2D`.
* Memory exhaustion (`new` throwing) is not modelled.
-/

namespace Cubetest

/-- An `unsigned char`. -/
abbrev Byte := Fin 256

/-- Byte order of the machine: `fread(&hdr, ...)` fills the struct in native order. -/
inductive ByteOrder where
  | little
  | big
  deriving DecidableEq, Repr

/-- Value of a byte string read least-significant byte first. -/
def le_nat : List Byte → Nat
  | [] => 0
  | b :: bs => b.val + 256 * le_nat bs

/-- Value of an unsigned integer object whose bytes in memory are `bs`. -/
def decodeUInt (bo : ByteOrder) (bs : List Byte) : Nat :=
  match bo with
  | .little => le_nat bs
  | .big => le_nat bs.reverse

/-- The `n` bytes at offset `off` of an object representation. -/
def bytesAt (bs : List Byte) (off n : Nat) : List Byte :=
  (bs.drop off).take n

/-- The anonymous struct `{ uint32_t offset, size; }` of `Header::datadesc`. -/
structure DataDesc where
  offset : Nat
  size : Nat
  deriving DecidableEq, Repr

/-- The file header, `struct Header`. -/
structure Header where
  magic : List Byte
  glfmt : Nat
  flags : Nat
  levels : Nat
  width : Nat
  height : Nat
  datadesc : Fin 20 → DataDesc
  unused : List Byte

/-- The value of `sizeof(Header)`: 8 + 4 + 2 + 2 + 4 + 4 + 20 * 8 + 8, no padding. -/
def sizeof_Header : Nat := 192

/-- The `Header` whose object representation is `bs` (the effect of
`fread(&hdr, 1, sizeof hdr, fp)` having delivered `bs`). -/
def readHeader (bo : ByteOrder) (bs : List Byte) : Header where
  magic := bytesAt bs 0 8
  glfmt := decodeUInt bo (bytesAt bs 8 4)
  flags := decodeUInt bo (bytesAt bs 12 2)
  levels := decodeUInt bo (bytesAt bs 14 2)
  width := decodeUInt bo (bytesAt bs 16 4)
  height := decodeUInt bo (bytesAt bs 20 4)
  datadesc := fun k =>
    { offset := decodeUInt bo (bytesAt bs (24 + 8 * k.val) 4)
      size := decodeUInt bo (bytesAt bs (28 + 8 * k.val) 4) }
  unused := bytesAt bs 184 8

/-- The first eight bytes of the string literal "COMPTEX0". -/
def COMPTEX0 : List Byte := [0x43, 0x4F, 0x4D, 0x50, 0x54, 0x45, 0x58, 0x30]

/-- The C library `memcmp` on the first `n` bytes: zero when they agree, else
the difference of the first pair of bytes that differ. -/
def memcmp : List Byte → List Byte → Nat → Int
  | a :: as, b :: bs, n + 1 =>
    if a = b then memcmp as bs n else (a.val : Int) - (b.val : Int)
  | _, _, _ => 0

/-- Conversion of a `uint32_t`/`unsigned int` value to `int`/`GLsizei` (32 bits,
two's complement). -/
def int_of_uint32 (n : Nat) : Int :=
  if n < 2 ^ 31 then (n : Int) else (n : Int) - 2 ^ 32

/-- The in-memory texture, `struct Texture`. `data` is the content of the live
buffer the pointer designates, `none` when it designates no live buffer
(never assigned, or already released with `delete []`). -/
structure Texture where
  id : Nat
  width : Int
  height : Int
  format : Nat
  size : Nat
  data : Option (List Byte)
  deriving DecidableEq, Repr

/-- Externally visible actions, in the order the program performs them. The
arguments of `glCompressedTexImage2D` are the values the function receives,
in its parameter types `(GLenum target, GLint level, GLenum internalformat,
GLsizei width, GLsizei height, GLint border, GLsizei imageSize, const void *data)`,
where `GLenum` is `unsigned int` and `GLint`, `GLsizei` are `int`; `data` is the
content of the buffer pointed to. -/
inductive Event where
  | fopen (fname : String) (ok : Bool)
  | fread (requested got : Nat)
  | fclose
  | newArray (n : Nat)
  | deleteArray
  | eprint (msg : String)
  | glGenTextures (id : Nat)
  | glBindTexture (target id : Nat)
  | glTexParameteri (target pname param : Nat)
  | glCompressedTexImage2D (target : Nat) (level : Int) (internalformat : Nat)
      (width height : Int) (border : Int) (imageSize : Int) (data : Option (List Byte))
  | glDeleteTextures (id : Nat)
  deriving DecidableEq, Repr

/-- The world outside the program: what each file name holds (`none` when
`fopen` fails on it) and the text `strerror(errno)` yields after a failed
operation on it. -/
structure Env where
  file : String → Option (List Byte)
  strerror_errno : String → String

/-- What a call of `load_teximage` leaves behind: its return value, the
`Texture` it was given a pointer to, and the actions it performed. -/
structure LoadResult where
  ret : Bool
  tex : Texture
  events : List Event
  deriving DecidableEq, Repr

/-- The condition of the validation `if` in `load_teximage`, as written. -/
def hdr_rejected (hdr : Header) : Bool :=
  decide (memcmp hdr.magic COMPTEX0 8 ≠ 0) || decide ((hdr.levels : Int) < 0) ||
    decide (hdr.levels > 20) || decide ((hdr.datadesc 0).size = 0)

/-- The line printed when `fopen` fails. -/
def msg_open (env : Env) (fname : String) : String :=
  "failed to open file: " ++ fname ++ ": " ++ env.strerror_errno fname ++ "\n"

/-- The line printed when the header read is short. -/
def msg_header (env : Env) (fname : String) : String :=
  "failed to read image file header: " ++ fname ++ ": " ++ env.strerror_errno fname ++ "\n"

/-- The line printed when the validation of the header fails. -/
def msg_corrupt (fname : String) : String :=
  fname ++ " is not a compressed texture file, or is corrupted\n"

/-- The line printed when the payload read is short. -/
def msg_eof (fname : String) : String :=
  "unexpected EOF while reading texture: " ++ fname ++ "\n"

/-- The function `load_teximage(fname, tex)`. -/
def load_teximage (bo : ByteOrder) (env : Env) (fname : String) (tex : Texture) : LoadResult :=
  match env.file fname with
  | none =>
    { ret := false, tex := tex,
      events := [.fopen fname false, .eprint (msg_open env fname)] }
  | some bytes =>
    let got := bytes.take sizeof_Header
    if got.length ≠ sizeof_Header then
      { ret := false, tex := tex,
        events := [.fopen fname true, .fread sizeof_Header got.length,
          .eprint (msg_header env fname), .fclose] }
    else
      let hdr := readHeader bo got
      if hdr_rejected hdr then
        { ret := false, tex := tex,
          events := [.fopen fname true, .fread sizeof_Header got.length,
            .eprint (msg_corrupt fname), .fclose] }
      else
        let n := (hdr.datadesc 0).size
        let payload := (bytes.drop sizeof_Header).take n
        if payload.length ≠ n then
          { ret := false, tex := { tex with data := none },
            events := [.fopen fname true, .fread sizeof_Header got.length,
              .newArray n, .fread n payload.length, .eprint (msg_eof fname),
              .fclose, .deleteArray] }
        else
          { ret := true,
            tex := { tex with
              data := some payload
              width := int_of_uint32 hdr.width
              height := int_of_uint32 hdr.height
              format := hdr.glfmt
              size := n },
            events := [.fopen fname true, .fread sizeof_Header got.length,
              .newArray n, .fread n payload.length, .fclose] }

/-- The array `names` of `load_cubemap`. -/
def names : Fin 6 → String
  | 0 => "data/right.tex"
  | 1 => "data/left.tex"
  | 2 => "data/up.tex"
  | 3 => "data/down.tex"
  | 4 => "data/back.tex"
  | 5 => "data/front.tex"

/-! Constants of the OpenGL headers. -/

def GL_TEXTURE_CUBE_MAP : Nat := 0x8513
def GL_TEXTURE_CUBE_MAP_POSITIVE_X : Nat := 0x8515
def GL_TEXTURE_MAG_FILTER : Nat := 0x2800
def GL_TEXTURE_MIN_FILTER : Nat := 0x2801
def GL_TEXTURE_WRAP_S : Nat := 0x2802
def GL_TEXTURE_WRAP_T : Nat := 0x2803
def GL_LINEAR : Nat := 0x2601
def GL_CLAMP_TO_EDGE : Nat := 0x812F

/-- What a call of `load_cubemap` leaves behind. -/
structure CubemapResult where
  ret : Nat
  events : List Event
  deriving DecidableEq, Repr

/-- The call `glCompressedTexImage2D(face, 0, tex.format, tex.width, tex.height, 0,
tex.size, tex.data)` with `face = GL_TEXTURE_CUBE_MAP_POSITIVE_X + i`. The
`unsigned int tex.size` is converted to the `GLsizei` parameter; `tex.width` and
`tex.height` are `int` already, `face` and `tex.format` are `unsigned int`. -/
def upload (i : Fin 6) (tex : Texture) : Event :=
  .glCompressedTexImage2D (GL_TEXTURE_CUBE_MAP_POSITIVE_X + i.val) 0 tex.format
    tex.width tex.height 0 (int_of_uint32 tex.size) tex.data

/-- The texture object after `delete [] tex.data`: the pointer designates no
live buffer any more. -/
def released (tex : Texture) : Texture := { tex with data := none }

/-- The `for` loop of `load_cubemap` over the values of `i` still to come, and
the `return tex.id` after it. -/
def cubemap_loop (bo : ByteOrder) (env : Env) : List (Fin 6) → Texture → CubemapResult
  | [], tex => { ret := tex.id, events := [] }
  | i :: rest, tex =>
    let r := load_teximage bo env (names i) tex
    if !r.ret then
      { ret := 0, events := r.events ++ [.glDeleteTextures r.tex.id] }
    else
      let k := cubemap_loop bo env rest (released r.tex)
      { ret := k.ret, events := r.events ++ [upload i r.tex, .deleteArray] ++ k.events }

/-- The values `i` takes in `for(int i=0; i<6; i++)`. -/
def faces : List (Fin 6) := [0, 1, 2, 3, 4, 5]

/-- The function `load_cubemap()`. `tex0` is the indeterminate initial content of
the local `Texture tex`; `genId` is the name `glGenTextures` writes to `tex.id`. -/
def load_cubemap (bo : ByteOrder) (env : Env) (genId : Nat) (tex0 : Texture) : CubemapResult :=
  let tex : Texture := { tex0 with id := genId }
  let k := cubemap_loop bo env faces tex
  { ret := k.ret,
    events :=
      [.glGenTextures genId,
       .glBindTexture GL_TEXTURE_CUBE_MAP tex.id,
       .glTexParameteri GL_TEXTURE_CUBE_MAP GL_TEXTURE_MIN_FILTER GL_LINEAR,
       .glTexParameteri GL_TEXTURE_CUBE_MAP GL_TEXTURE_MAG_FILTER GL_LINEAR,
       .glTexParameteri GL_TEXTURE_CUBE_MAP GL_TEXTURE_WRAP_S GL_CLAMP_TO_EDGE,
       .glTexParameteri GL_TEXTURE_CUBE_MAP GL_TEXTURE_WRAP_T GL_CLAMP_TO_EDGE] ++ k.events }

/-! ### Observations on traces -/

/-- The lines written to `stderr`. -/
def stderrOf (es : List Event) : List String :=
  es.filterMap fun e => match e with
    | .eprint m => some m
    | _ => none

/-- The face uploads, in order. -/
def uploadsOf (es : List Event) : List Event :=
  es.filter fun e => match e with
    | .glCompressedTexImage2D .. => true
    | _ => false

/-- The file names passed to `fopen`, in order. -/
def openedOf (es : List Event) : List String :=
  es.filterMap fun e => match e with
    | .fopen f _ => some f
    | _ => none

/-- The texture names passed to `glDeleteTextures`, in order. -/
def deletedOf (es : List Event) : List Nat :=
  es.filterMap fun e => match e with
    | .glDeleteTextures t => some t
    | _ => none

/-- The sizes passed to `new unsigned char[...]`, in order. -/
def allocsOf (es : List Event) : List Nat :=
  es.filterMap fun e => match e with
    | .newArray n => some n
    | _ => none

/-- The `fread` calls as (requested, delivered), in order. -/
def freadsOf (es : List Event) : List (Nat × Nat) :=
  es.filterMap fun e => match e with
    | .fread r g => some (r, g)
    | _ => none

/-- The header `load_teximage` finds in a file holding `bytes`. -/
def fileHeader (bo : ByteOrder) (bytes : List Byte) : Header :=
  readHeader bo (bytes.take sizeof_Header)

/-- The bytes of a file that follow its header, up to the size the header
declares for level 0. -/
def filePayload (bo : ByteOrder) (bytes : List Byte) : List Byte :=
  (bytes.drop sizeof_Header).take ((fileHeader bo bytes).datadesc 0).size

/-! ### Concrete files -/

/-- A 192-byte header image, field by field: `magic` (8 bytes), `glfmt` (4),
`flags` (2), `levels` (2), `width` (4), `height` (4), `datadesc[0]` (8), then
zeros for `datadesc[1..19]` and `unused` (160). -/
def headerImage (magic glfmt flags levels width height desc0 : List Byte) : List Byte :=
  magic ++ glfmt ++ flags ++ levels ++ width ++ height ++ desc0 ++ List.replicate 160 0

/-- A world with the single file `fname` holding `bytes`. -/
def oneFile (fname : String) (bytes : List Byte) : Env where
  file := fun f => if f = fname then some bytes else none
  strerror_errno := fun f => if f = fname then "Success" else "No such file or directory"

/-- A texture object with all fields zero and no buffer. -/
def tex_zero : Texture :=
  { id := 0, width := 0, height := 0, format := 0, size := 0, data := none }

/-- The file of the round-trip example (little-endian): format 0x83F1, flags 0,
one level, 512 x 512, level 0 at offset 0 with size 1024, then 1024 bytes 0xAB. -/
def file_roundtrip : List Byte :=
  headerImage COMPTEX0 [0xF1, 0x83, 0, 0] [0, 0] [1, 0] [0, 2, 0, 0] [0, 2, 0, 0]
    [0, 0, 0, 0, 0, 4, 0, 0] ++ List.replicate 1024 0xAB

/-- The same header followed by only 512 bytes 0xAB. -/
def file_truncated : List Byte :=
  headerImage COMPTEX0 [0xF1, 0x83, 0, 0] [0, 0] [1, 0] [0, 2, 0, 0] [0, 2, 0, 0]
    [0, 0, 0, 0, 0, 4, 0, 0] ++ List.replicate 512 0xAB

/-- A file of 4 x 4 texels with one payload byte, `levels` given by its two bytes. -/
def file_levels (levels : List Byte) : List Byte :=
  headerImage COMPTEX0 [0xF1, 0x83, 0, 0] [0, 0] levels [4, 0, 0, 0] [4, 0, 0, 0]
    [0, 0, 0, 0, 1, 0, 0, 0] ++ [0xAB]

/-- As `file_levels [1, 0]`, except that the magic reads "DOMPTEX0". -/
def file_badmagic : List Byte :=
  headerImage [0x44, 0x4F, 0x4D, 0x50, 0x54, 0x45, 0x58, 0x30] [0xF1, 0x83, 0, 0] [0, 0] [1, 0]
    [4, 0, 0, 0] [4, 0, 0, 0] [0, 0, 0, 0, 1, 0, 0, 0] ++ [0xAB]

/-- As `file_levels [1, 0]`, except that `datadesc[0].size` is 0. -/
def file_zerosize : List Byte :=
  headerImage COMPTEX0 [0xF1, 0x83, 0, 0] [0, 0] [1, 0] [4, 0, 0, 0] [4, 0, 0, 0]
    [0, 0, 0, 0, 0, 0, 0, 0] ++ [0xAB]

/-- A valid little-endian file with `width` and `height` given by their four
bytes and one payload byte. -/
def file_dims (width height : List Byte) : List Byte :=
  headerImage COMPTEX0 [0xF1, 0x83, 0, 0] [0, 0] [1, 0] width height
    [0, 0, 0, 0, 1, 0, 0, 0] ++ [0xAB]

/-- A little-endian file with one level: `glfmt`, `width`, `height` and
`datadesc[0].size` given by their four bytes, followed by `payload`. -/
def file_face (glfmt width height size payload : List Byte) : List Byte :=
  headerImage COMPTEX0 glfmt [0, 0] [1, 0] width height ([0, 0, 0, 0] ++ size) ++ payload

/-- A world holding the six face files (`none` for a file that cannot be opened). -/
def sixFiles (right left up down back front : Option (List Byte)) : Env where
  file := fun f =>
    if f = "data/right.tex" then right
    else if f = "data/left.tex" then left
    else if f = "data/up.tex" then up
    else if f = "data/down.tex" then down
    else if f = "data/back.tex" then back
    else if f = "data/front.tex" then front
    else none
  strerror_errno := fun _ => "No such file or directory"

def face_right : List Byte := file_face [0xF1, 0x83, 0, 0] [4, 0, 0, 0] [4, 0, 0, 0] [1, 0, 0, 0] [1]
def face_left : List Byte := file_face [0xF0, 0x83, 0, 0] [8, 0, 0, 0] [4, 0, 0, 0] [2, 0, 0, 0] [2, 2]
def face_up : List Byte := file_face [0xF2, 0x83, 0, 0] [4, 0, 0, 0] [8, 0, 0, 0] [1, 0, 0, 0] [3]
def face_down : List Byte :=
  file_face [0xF3, 0x83, 0, 0] [16, 0, 0, 0] [16, 0, 0, 0] [3, 0, 0, 0] [4, 4, 4]
def face_back : List Byte := file_face [0xF1, 0x83, 0, 0] [1, 0, 0, 0] [1, 0, 0, 0] [1, 0, 0, 0] [5]
def face_front : List Byte := file_face [0xF1, 0x83, 0, 0] [2, 0, 0, 0] [2, 0, 0, 0] [1, 0, 0, 0] [6]

/-- Six valid faces that differ in format, width and height. -/
def env_mixed : Env :=
  sixFiles (some face_right) (some face_left) (some face_up) (some face_down) (some face_back)
    (some face_front)

/-- The six face files of `env_mixed`, by face index. -/
def bytes_mixed : Fin 6 → List Byte
  | 0 => face_right
  | 1 => face_left
  | 2 => face_up
  | 3 => face_down
  | 4 => face_back
  | 5 => face_front

/-- As `env_mixed`, except that data/down.tex has a wrong magic. -/
def env_down_bad : Env :=
  sixFiles (some face_right) (some face_left) (some face_up) (some file_badmagic)
    (some face_back) (some face_front)

/-- As `env_mixed`, except that data/right.tex declares width 0x80000000. -/
def env_wide : Env :=
  sixFiles (some (file_dims [0, 0, 0, 0x80] [4, 0, 0, 0])) (some face_left) (some face_up)
    (some face_down) (some face_back) (some face_front)

/-- As `env_mixed`, except that data/left.tex declares height 0xFFFFFFFF. -/
def env_tall : Env :=
  sixFiles (some face_right) (some (file_dims [4, 0, 0, 0] [0xFF, 0xFF, 0xFF, 0xFF]))
    (some face_up) (some face_down) (some face_back) (some face_front)

/-! ### Basic facts -/

theorem memcmp_eq_zero_iff (n : Nat) :
    ∀ a b : List Byte, a.length = n → b.length = n → (memcmp a b n = 0 ↔ a = b) := by
  induction n with
  | zero =>
    intro a b ha hb
    have ha0 : a = [] := List.length_eq_zero.mp ha
    have hb0 : b = [] := List.length_eq_zero.mp hb
    subst ha0 hb0
    simp [memcmp]
  | succ n ih =>
    intro a b ha hb
    match a, b, ha, hb with
    | x :: xs, y :: ys, ha, hb =>
      simp only [List.length_cons, Nat.add_right_cancel_iff] at ha hb
      by_cases hxy : x = y
      · subst hxy
        simp [memcmp, ih xs ys ha hb]
      · have hv : x.val ≠ y.val := fun h => hxy (Fin.ext h)
        simp only [memcmp, hxy, if_false, List.cons.injEq, false_and, iff_false]
        omega

theorem fileHeader_magic (bo : ByteOrder) (bytes : List Byte) :
    (fileHeader bo bytes).magic = bytes.take 8 := by
  simp [fileHeader, readHeader, bytesAt, sizeof_Header, List.take_take]

theorem hdr_rejected_eq_false_iff (bo : ByteOrder) (bytes : List Byte)
    (hlen : sizeof_Header ≤ bytes.length) :
    hdr_rejected (fileHeader bo bytes) = false ↔
      bytes.take 8 = COMPTEX0 ∧ (fileHeader bo bytes).levels ≤ 20 ∧
        ((fileHeader bo bytes).datadesc 0).size ≠ 0 := by
  have hl : (bytes.take 8).length = 8 := by
    simp only [sizeof_Header] at hlen
    simp only [List.length_take]
    omega
  have hm := memcmp_eq_zero_iff 8 (bytes.take 8) COMPTEX0 hl rfl
  simp only [hdr_rejected, fileHeader_magic, Bool.or_eq_false_iff, decide_eq_false_iff_not,
    not_not, hm, not_lt, Int.natCast_nonneg, and_true, Nat.not_lt, gt_iff_lt, and_assoc]

theorem load_teximage_open_failed (bo : ByteOrder) (env : Env) (fname : String) (tex : Texture)
    (hfile : env.file fname = none) :
    load_teximage bo env fname tex =
      { ret := false, tex := tex,
        events := [.fopen fname false, .eprint (msg_open env fname)] } := by
  simp [load_teximage, hfile]

theorem load_teximage_short_header (bo : ByteOrder) (env : Env) (fname : String) (tex : Texture)
    (bytes : List Byte) (hfile : env.file fname = some bytes)
    (hlen : bytes.length < sizeof_Header) :
    load_teximage bo env fname tex =
      { ret := false, tex := tex,
        events := [.fopen fname true, .fread sizeof_Header bytes.length,
          .eprint (msg_header env fname), .fclose] } := by
  have h1 : (bytes.take sizeof_Header).length = bytes.length := by
    simp only [List.length_take]; omega
  have h2 : bytes.length ≠ sizeof_Header := by omega
  simp [load_teximage, hfile, h1, h2]

theorem load_teximage_rejected (bo : ByteOrder) (env : Env) (fname : String) (tex : Texture)
    (bytes : List Byte) (hfile : env.file fname = some bytes)
    (hlen : sizeof_Header ≤ bytes.length)
    (hrej : hdr_rejected (fileHeader bo bytes) = true) :
    load_teximage bo env fname tex =
      { ret := false, tex := tex,
        events := [.fopen fname true, .fread sizeof_Header sizeof_Header,
          .eprint (msg_corrupt fname), .fclose] } := by
  have h1 : (bytes.take sizeof_Header).length = sizeof_Header := by
    simp only [List.length_take]; omega
  simp only [fileHeader] at hrej
  simp [load_teximage, hfile, h1, hrej]

theorem load_teximage_short_payload (bo : ByteOrder) (env : Env) (fname : String) (tex : Texture)
    (bytes : List Byte) (hfile : env.file fname = some bytes)
    (hlen : sizeof_Header ≤ bytes.length)
    (hrej : hdr_rejected (fileHeader bo bytes) = false)
    (hshort : bytes.length - sizeof_Header < ((fileHeader bo bytes).datadesc 0).size) :
    load_teximage bo env fname tex =
      { ret := false, tex := { tex with data := none },
        events := [.fopen fname true, .fread sizeof_Header sizeof_Header,
          .newArray ((fileHeader bo bytes).datadesc 0).size,
          .fread ((fileHeader bo bytes).datadesc 0).size (bytes.length - sizeof_Header),
          .eprint (msg_eof fname), .fclose, .deleteArray] } := by
  have h1 : (bytes.take sizeof_Header).length = sizeof_Header := by
    simp only [List.length_take]; omega
  simp only [fileHeader] at hrej hshort
  have h2 : ((bytes.drop sizeof_Header).take
      ((readHeader bo (bytes.take sizeof_Header)).datadesc 0).size).length =
      bytes.length - sizeof_Header := by
    simp only [List.length_take, List.length_drop]; omega
  have h3 : bytes.length - sizeof_Header ≠
      ((readHeader bo (bytes.take sizeof_Header)).datadesc 0).size := by omega
  simp [load_teximage, hfile, h1, hrej, h2, h3, fileHeader]

theorem load_teximage_ok (bo : ByteOrder) (env : Env) (fname : String) (tex : Texture)
    (bytes : List Byte) (hfile : env.file fname = some bytes)
    (hlen : sizeof_Header ≤ bytes.length)
    (hrej : hdr_rejected (fileHeader bo bytes) = false)
    (hfull : ((fileHeader bo bytes).datadesc 0).size ≤ bytes.length - sizeof_Header) :
    load_teximage bo env fname tex =
      { ret := true,
        tex := { id := tex.id
                 width := int_of_uint32 (fileHeader bo bytes).width
                 height := int_of_uint32 (fileHeader bo bytes).height
                 format := (fileHeader bo bytes).glfmt
                 size := ((fileHeader bo bytes).datadesc 0).size
                 data := some (filePayload bo bytes) },
        events := [.fopen fname true, .fread sizeof_Header sizeof_Header,
          .newArray ((fileHeader bo bytes).datadesc 0).size,
          .fread ((fileHeader bo bytes).datadesc 0).size
            ((fileHeader bo bytes).datadesc 0).size, .fclose] } := by
  have h1 : (bytes.take sizeof_Header).length = sizeof_Header := by
    simp only [List.length_take]; omega
  simp only [fileHeader] at hrej hfull
  have h2 : ((bytes.drop sizeof_Header).take
      ((readHeader bo (bytes.take sizeof_Header)).datadesc 0).size).length =
      ((readHeader bo (bytes.take sizeof_Header)).datadesc 0).size := by
    simp only [List.length_take, List.length_drop]; omega
  simp [load_teximage, hfile, h1, hrej, h2, fileHeader, filePayload]

theorem filePayload_length (bo : ByteOrder) (bytes : List Byte)
    (hfull : ((fileHeader bo bytes).datadesc 0).size ≤ bytes.length - sizeof_Header) :
    (filePayload bo bytes).length = ((fileHeader bo bytes).datadesc 0).size := by
  simp only [filePayload, List.length_take, List.length_drop]; omega

theorem hdr_rejected_of_bad (bo : ByteOrder) (bytes : List Byte)
    (hlen : sizeof_Header ≤ bytes.length)
    (hbad : bytes.take 8 ≠ COMPTEX0 ∨ 20 < (fileHeader bo bytes).levels ∨
      ((fileHeader bo bytes).datadesc 0).size = 0) :
    hdr_rejected (fileHeader bo bytes) = true := by
  by_contra hne
  have hf : hdr_rejected (fileHeader bo bytes) = false := by simpa using hne
  obtain ⟨h1, h2, h3⟩ := (hdr_rejected_eq_false_iff bo bytes hlen).mp hf
  rcases hbad with h | h | h
  · exact h h1
  · omega
  · exact h3 h

theorem int_of_uint32_small (n : Nat) (h : n < 2 ^ 31) : int_of_uint32 n = (n : Int) := by
  unfold int_of_uint32
  rw [if_pos h]

/-! ### One call of `load_teximage` inside the loop of `load_cubemap` -/

/-- The three shapes a result of `load_teximage` can have, uniformly in the
texture passed in: failure leaving it untouched, failure leaving it without
data, success overwriting everything but `id`. -/
theorem load_teximage_cases (bo : ByteOrder) (env : Env) (fname : String) :
    (∃ ev, ∀ t, load_teximage bo env fname t = { ret := false, tex := t, events := ev }) ∨
    (∃ ev, ∀ t, load_teximage bo env fname t =
      { ret := false, tex := { t with data := none }, events := ev }) ∨
    (∃ w h f n d ev, ∀ t, load_teximage bo env fname t =
      { ret := true,
        tex := { id := t.id, width := w, height := h, format := f, size := n, data := d },
        events := ev }) := by
  cases hfile : env.file fname with
  | none => exact Or.inl ⟨_, fun t => load_teximage_open_failed bo env fname t hfile⟩
  | some bytes =>
    by_cases hlen : bytes.length < sizeof_Header
    · exact Or.inl ⟨_, fun t => load_teximage_short_header bo env fname t bytes hfile hlen⟩
    · have hl : sizeof_Header ≤ bytes.length := by omega
      cases hr : hdr_rejected (fileHeader bo bytes) with
      | true => exact Or.inl ⟨_, fun t => load_teximage_rejected bo env fname t bytes hfile hl hr⟩
      | false =>
        by_cases hfull : ((fileHeader bo bytes).datadesc 0).size ≤ bytes.length - sizeof_Header
        · exact Or.inr (Or.inr ⟨_, _, _, _, _, _,
            fun t => load_teximage_ok bo env fname t bytes hfile hl hr hfull⟩)
        · exact Or.inr (Or.inl ⟨_,
            fun t => load_teximage_short_payload bo env fname t bytes hfile hl hr (by omega)⟩)

theorem load_teximage_ret_indep (bo : ByteOrder) (env : Env) (fname : String)
    (t t1 : Texture) :
    (load_teximage bo env fname t).ret = (load_teximage bo env fname t1).ret := by
  rcases load_teximage_cases bo env fname with ⟨ev, h⟩ | ⟨ev, h⟩ | ⟨w, hh, f, n, d, ev, h⟩ <;>
    rw [h t, h t1]

theorem load_teximage_id (bo : ByteOrder) (env : Env) (fname : String) (t : Texture) :
    (load_teximage bo env fname t).tex.id = t.id := by
  rcases load_teximage_cases bo env fname with ⟨ev, h⟩ | ⟨ev, h⟩ | ⟨w, hh, f, n, d, ev, h⟩ <;>
    rw [h t]

theorem upload_indep (bo : ByteOrder) (env : Env) (fname : String) (i : Fin 6)
    (t t1 : Texture) (hok : (load_teximage bo env fname t).ret = true) :
    upload i (load_teximage bo env fname t).tex = upload i (load_teximage bo env fname t1).tex := by
  rcases load_teximage_cases bo env fname with ⟨ev, h⟩ | ⟨ev, h⟩ | ⟨w, hh, f, n, d, ev, h⟩
  · rw [h t] at hok; cases hok
  · rw [h t] at hok; cases hok
  · rw [h t, h t1]; rfl

theorem load_teximage_observed (bo : ByteOrder) (env : Env) (fname : String) (t : Texture) :
    uploadsOf (load_teximage bo env fname t).events = [] ∧
    openedOf (load_teximage bo env fname t).events = [fname] ∧
    deletedOf (load_teximage bo env fname t).events = [] := by
  cases hfile : env.file fname with
  | none =>
    rw [load_teximage_open_failed bo env fname t hfile]
    simp [uploadsOf, openedOf, deletedOf]
  | some bytes =>
    by_cases hlen : bytes.length < sizeof_Header
    · rw [load_teximage_short_header bo env fname t bytes hfile hlen]
      simp [uploadsOf, openedOf, deletedOf]
    · have hl : sizeof_Header ≤ bytes.length := by omega
      cases hr : hdr_rejected (fileHeader bo bytes) with
      | true =>
        rw [load_teximage_rejected bo env fname t bytes hfile hl hr]
        simp [uploadsOf, openedOf, deletedOf]
      | false =>
        by_cases hfull : ((fileHeader bo bytes).datadesc 0).size ≤ bytes.length - sizeof_Header
        · rw [load_teximage_ok bo env fname t bytes hfile hl hr hfull]
          simp [uploadsOf, openedOf, deletedOf]
        · rw [load_teximage_short_payload bo env fname t bytes hfile hl hr (by omega)]
          simp [uploadsOf, openedOf, deletedOf]

theorem uploadsOf_append (a b : List Event) : uploadsOf (a ++ b) = uploadsOf a ++ uploadsOf b := by
  simp [uploadsOf]

theorem openedOf_append (a b : List Event) : openedOf (a ++ b) = openedOf a ++ openedOf b := by
  simp [openedOf]

theorem deletedOf_append (a b : List Event) : deletedOf (a ++ b) = deletedOf a ++ deletedOf b := by
  simp [deletedOf]

theorem observed_upload (i : Fin 6) (t : Texture) :
    uploadsOf [upload i t, .deleteArray] = [upload i t] ∧
    openedOf [upload i t, .deleteArray] = [] ∧
    deletedOf [upload i t, .deleteArray] = [] := by
  simp [uploadsOf, openedOf, deletedOf, upload]

theorem cubemap_loop_cons_ok (bo : ByteOrder) (env : Env) (i : Fin 6) (rest : List (Fin 6))
    (tex : Texture) (hok : (load_teximage bo env (names i) tex).ret = true) :
    cubemap_loop bo env (i :: rest) tex =
      { ret := (cubemap_loop bo env rest (released (load_teximage bo env (names i) tex).tex)).ret,
        events := (load_teximage bo env (names i) tex).events ++
          [upload i (load_teximage bo env (names i) tex).tex, .deleteArray] ++
          (cubemap_loop bo env rest (released (load_teximage bo env (names i) tex).tex)).events } := by
  simp [cubemap_loop, hok]

theorem cubemap_loop_cons_fail (bo : ByteOrder) (env : Env) (i : Fin 6) (rest : List (Fin 6))
    (tex : Texture) (hfail : (load_teximage bo env (names i) tex).ret = false) :
    cubemap_loop bo env (i :: rest) tex =
      { ret := 0,
        events := (load_teximage bo env (names i) tex).events ++
          [.glDeleteTextures (load_teximage bo env (names i) tex).tex.id] } := by
  simp [cubemap_loop, hfail]

/-- The loop when every remaining face loads. -/
theorem cubemap_loop_all_ok (bo : ByteOrder) (env : Env) (tex0 : Texture) :
    ∀ (l : List (Fin 6)) (tex : Texture),
      (∀ j ∈ l, (load_teximage bo env (names j) tex0).ret = true) →
      (cubemap_loop bo env l tex).ret = tex.id ∧
      uploadsOf (cubemap_loop bo env l tex).events =
        l.map (fun j => upload j (load_teximage bo env (names j) tex0).tex) ∧
      openedOf (cubemap_loop bo env l tex).events = l.map names ∧
      deletedOf (cubemap_loop bo env l tex).events = [] := by
  intro l
  induction l with
  | nil =>
    intro tex _
    simp [cubemap_loop, uploadsOf, openedOf, deletedOf]
  | cons i rest ih =>
    intro tex hall
    have hi : (load_teximage bo env (names i) tex).ret = true := by
      rw [load_teximage_ret_indep bo env (names i) tex tex0]
      exact hall i (List.mem_cons_self _ _)
    have hrest : ∀ j ∈ rest, (load_teximage bo env (names j) tex0).ret = true :=
      fun j hj => hall j (List.mem_cons_of_mem _ hj)
    obtain ⟨o1, o2, o3⟩ := load_teximage_observed bo env (names i) tex
    obtain ⟨u1, u2, u3⟩ := observed_upload i (load_teximage bo env (names i) tex).tex
    obtain ⟨r1, r2, r3, r4⟩ := ih (released (load_teximage bo env (names i) tex).tex) hrest
    have hid : (released (load_teximage bo env (names i) tex).tex).id = tex.id :=
      load_teximage_id bo env (names i) tex
    have hup := upload_indep bo env (names i) i tex tex0 hi
    rw [cubemap_loop_cons_ok bo env i rest tex hi]
    refine ⟨?_, ?_, ?_, ?_⟩
    · show (cubemap_loop bo env rest (released (load_teximage bo env (names i) tex).tex)).ret = _
      rw [r1, hid]
    · show uploadsOf (_ ++ _ ++ _) = _
      rw [uploadsOf_append, uploadsOf_append, o1, u1, r2, hup]
      rfl
    · show openedOf (_ ++ _ ++ _) = _
      rw [openedOf_append, openedOf_append, o2, u2, r3]
      rfl
    · show deletedOf (_ ++ _ ++ _) = _
      rw [deletedOf_append, deletedOf_append, o3, u3, r4]
      rfl

/-- The loop when the face `i` is the first that fails to load. -/
theorem cubemap_loop_first_failure (bo : ByteOrder) (env : Env) (tex0 : Texture)
    (i : Fin 6) (post : List (Fin 6))
    (hfail : (load_teximage bo env (names i) tex0).ret = false) :
    ∀ (pre : List (Fin 6)) (tex : Texture),
      (∀ j ∈ pre, (load_teximage bo env (names j) tex0).ret = true) →
      (cubemap_loop bo env (pre ++ i :: post) tex).ret = 0 ∧
      uploadsOf (cubemap_loop bo env (pre ++ i :: post) tex).events =
        pre.map (fun j => upload j (load_teximage bo env (names j) tex0).tex) ∧
      openedOf (cubemap_loop bo env (pre ++ i :: post) tex).events = (pre ++ [i]).map names ∧
      deletedOf (cubemap_loop bo env (pre ++ i :: post) tex).events = [tex.id] ∧
      (cubemap_loop bo env (pre ++ i :: post) tex).events.getLast? =
        some (.glDeleteTextures tex.id) := by
  intro pre
  induction pre with
  | nil =>
    intro tex _
    have hi : (load_teximage bo env (names i) tex).ret = false := by
      rw [load_teximage_ret_indep bo env (names i) tex tex0]
      exact hfail
    obtain ⟨o1, o2, o3⟩ := load_teximage_observed bo env (names i) tex
    have hid := load_teximage_id bo env (names i) tex
    rw [List.nil_append, cubemap_loop_cons_fail bo env i post tex hi, hid]
    refine ⟨rfl, ?_, ?_, ?_, ?_⟩
    · show uploadsOf (_ ++ _) = _
      rw [uploadsOf_append, o1]; rfl
    · show openedOf (_ ++ _) = _
      rw [openedOf_append, o2]; rfl
    · show deletedOf (_ ++ _) = _
      rw [deletedOf_append, o3]; rfl
    · show List.getLast? (_ ++ _) = _
      simp
  | cons k rest ih =>
    intro tex hall
    have hk : (load_teximage bo env (names k) tex).ret = true := by
      rw [load_teximage_ret_indep bo env (names k) tex tex0]
      exact hall k (List.mem_cons_self _ _)
    have hrest : ∀ j ∈ rest, (load_teximage bo env (names j) tex0).ret = true :=
      fun j hj => hall j (List.mem_cons_of_mem _ hj)
    obtain ⟨o1, o2, o3⟩ := load_teximage_observed bo env (names k) tex
    obtain ⟨u1, u2, u3⟩ := observed_upload k (load_teximage bo env (names k) tex).tex
    obtain ⟨r1, r2, r3, r4, r5⟩ := ih (released (load_teximage bo env (names k) tex).tex) hrest
    have hid : (released (load_teximage bo env (names k) tex).tex).id = tex.id :=
      load_teximage_id bo env (names k) tex
    have hup := upload_indep bo env (names k) k tex tex0 hk
    rw [hid] at r4 r5
    rw [List.cons_append, cubemap_loop_cons_ok bo env k (rest ++ i :: post) tex hk]
    refine ⟨r1, ?_, ?_, ?_, ?_⟩
    · show uploadsOf (_ ++ _ ++ _) = _
      rw [uploadsOf_append, uploadsOf_append, o1, u1, r2, hup]
      rfl
    · show openedOf (_ ++ _ ++ _) = _
      rw [openedOf_append, openedOf_append, o2, u2, r3]
      rfl
    · show deletedOf (_ ++ _ ++ _) = _
      rw [deletedOf_append, deletedOf_append, o3, u3, r4]
      rfl
    · show List.getLast? (_ ++ _ ++ _) = _
      rw [List.getLast?_append, r5]
      rfl

theorem load_teximage_ret_true_iff (bo : ByteOrder) (env : Env) (fname : String)
    (tex : Texture) (bytes : List Byte) (hfile : env.file fname = some bytes) :
    (load_teximage bo env fname tex).ret = true ↔
      sizeof_Header ≤ bytes.length ∧ hdr_rejected (fileHeader bo bytes) = false ∧
        ((fileHeader bo bytes).datadesc 0).size ≤ bytes.length - sizeof_Header := by
  by_cases hlen : bytes.length < sizeof_Header
  · rw [load_teximage_short_header bo env fname tex bytes hfile hlen]
    constructor
    · intro h; cases h
    · intro h; omega
  · have hl : sizeof_Header ≤ bytes.length := by omega
    cases hr : hdr_rejected (fileHeader bo bytes) with
    | true =>
      rw [load_teximage_rejected bo env fname tex bytes hfile hl hr]
      constructor
      · intro h; cases h
      · intro h; cases h.2.1
    | false =>
      by_cases hfull : ((fileHeader bo bytes).datadesc 0).size ≤ bytes.length - sizeof_Header
      · rw [load_teximage_ok bo env fname tex bytes hfile hl hr hfull]
        exact ⟨fun _ => ⟨hl, rfl, hfull⟩, fun _ => rfl⟩
      · rw [load_teximage_short_payload bo env fname tex bytes hfile hl hr (by omega)]
        constructor
        · intro h; cases h
        · intro h; exact absurd h.2.2 hfull

/-- The value the loop returns. -/
theorem cubemap_loop_ret (bo : ByteOrder) (env : Env) (tex0 : Texture) :
    ∀ (l : List (Fin 6)) (tex : Texture),
      (cubemap_loop bo env l tex).ret =
        if l.all (fun j => (load_teximage bo env (names j) tex0).ret) = true then tex.id
        else 0 := by
  intro l
  induction l with
  | nil => intro tex; simp [cubemap_loop]
  | cons i rest ih =>
    intro tex
    cases hi : (load_teximage bo env (names i) tex0).ret with
    | true =>
      have hi1 : (load_teximage bo env (names i) tex).ret = true := by
        rw [load_teximage_ret_indep bo env (names i) tex tex0]; exact hi
      have hid : (released (load_teximage bo env (names i) tex).tex).id = tex.id :=
        load_teximage_id bo env (names i) tex
      rw [cubemap_loop_cons_ok bo env i rest tex hi1]
      show (cubemap_loop bo env rest (released (load_teximage bo env (names i) tex).tex)).ret = _
      rw [ih, hid]
      simp [hi]
    | false =>
      have hi1 : (load_teximage bo env (names i) tex).ret = false := by
        rw [load_teximage_ret_indep bo env (names i) tex tex0]; exact hi
      rw [cubemap_loop_cons_fail bo env i rest tex hi1]
      simp [hi]

theorem mem_faces (j : Fin 6) : j ∈ faces := by
  revert j; decide

theorem faces_split (i : Fin 6) :
    faces = faces.take i.val ++ i :: faces.drop (i.val + 1) ∧ ∀ j ∈ faces.take i.val, j < i := by
  revert i; decide

theorem faces_take (i : Fin 6) :
    faces.take i.val ++ [i] = faces.take (i.val + 1) ∧ (faces.take i.val).length = i.val := by
  revert i; decide

/-- The calls `load_cubemap` makes before its loop perform no upload, open no
file and delete no texture. -/
theorem load_cubemap_observed (bo : ByteOrder) (env : Env) (genId : Nat) (tex0 : Texture) :
    (load_cubemap bo env genId tex0).ret =
      (cubemap_loop bo env faces { tex0 with id := genId }).ret ∧
    uploadsOf (load_cubemap bo env genId tex0).events =
      uploadsOf (cubemap_loop bo env faces { tex0 with id := genId }).events ∧
    openedOf (load_cubemap bo env genId tex0).events =
      openedOf (cubemap_loop bo env faces { tex0 with id := genId }).events ∧
    deletedOf (load_cubemap bo env genId tex0).events =
      deletedOf (cubemap_loop bo env faces { tex0 with id := genId }).events := by
  refine ⟨rfl, ?_, ?_, ?_⟩
  · show uploadsOf (_ ++ _) = _
    rw [uploadsOf_append]; rfl
  · show openedOf (_ ++ _) = _
    rw [openedOf_append]; rfl
  · show deletedOf (_ ++ _) = _
    rw [deletedOf_append]; rfl

/-- The upload of a face whose file is accepted, in terms of the fields of the
header of that file. -/
theorem upload_of_accepted (bo : ByteOrder) (env : Env) (fname : String) (j : Fin 6)
    (tex : Texture) (bytes : List Byte) (hfile : env.file fname = some bytes)
    (hok : (load_teximage bo env fname tex).ret = true) :
    upload j (load_teximage bo env fname tex).tex =
      Event.glCompressedTexImage2D (GL_TEXTURE_CUBE_MAP_POSITIVE_X + j.val) 0
        (fileHeader bo bytes).glfmt
        (int_of_uint32 (fileHeader bo bytes).width)
        (int_of_uint32 (fileHeader bo bytes).height) 0
        (int_of_uint32 ((fileHeader bo bytes).datadesc 0).size)
        (some ((bytes.drop 192).take ((fileHeader bo bytes).datadesc 0).size)) ∧
    ((bytes.drop 192).take ((fileHeader bo bytes).datadesc 0).size).length =
      ((fileHeader bo bytes).datadesc 0).size := by
  obtain ⟨hl, hr, hfull⟩ := (load_teximage_ret_true_iff bo env fname tex bytes hfile).mp hok
  rw [load_teximage_ok bo env fname tex bytes hfile hl hr hfull]
  exact ⟨rfl, filePayload_length bo bytes hfull⟩

theorem le_nat_lt (bs : List Byte) : le_nat bs < 256 ^ bs.length := by
  induction bs with
  | nil => simp [le_nat]
  | cons b bs ih =>
    have hb := b.isLt
    simp only [le_nat, List.length_cons, pow_succ]
    omega

/-- A four-byte field holds a value below 2^32, in either byte order. -/
theorem decodeUInt_lt (bo : ByteOrder) (bs : List Byte) (off : Nat) :
    decodeUInt bo (bytesAt bs off 4) < 2 ^ 32 := by
  have hlen : (bytesAt bs off 4).length ≤ 4 := by
    simp only [bytesAt, List.length_take]; omega
  have hpow : 256 ^ (bytesAt bs off 4).length ≤ 256 ^ 4 :=
    Nat.pow_le_pow_right (by decide) hlen
  cases bo with
  | little =>
    have h := le_nat_lt (bytesAt bs off 4)
    simp only [decodeUInt]
    omega
  | big =>
    have h := le_nat_lt (bytesAt bs off 4).reverse
    rw [List.length_reverse] at h
    simp only [decodeUInt]
    omega

set_option maxRecDepth 20000

/-! ### `load_teximage` -/

/-- C1 (failing input): a file whose header is valid except that `levels` is 0,
followed by the one payload byte it declares, is accepted by `load_teximage`:
the lower-bound test `hdr.levels < 0` can never hold for an unsigned field. -/
theorem load_teximage_levels_zero_accepted :
    (fileHeader .little (file_levels [0, 0])).levels = 0 ∧
    (load_teximage .little (oneFile "zero.tex" (file_levels [0, 0])) "zero.tex" tex_zero).ret
      = true := by
  decide

/-- The other three points of the level-count boundary behave as specified:
21 levels are rejected, 1 and 20 levels are accepted. -/
theorem load_teximage_levels_boundary (bo : ByteOrder) (env : Env) (fname : String)
    (tex : Texture) (bytes : List Byte) (hfile : env.file fname = some bytes)
    (hmagic : bytes.take 8 = COMPTEX0)
    (hsize : ((fileHeader bo bytes).datadesc 0).size ≠ 0)
    (hlen : sizeof_Header + ((fileHeader bo bytes).datadesc 0).size ≤ bytes.length) :
    ((fileHeader bo bytes).levels = 21 → (load_teximage bo env fname tex).ret = false) ∧
    ((fileHeader bo bytes).levels = 1 → (load_teximage bo env fname tex).ret = true) ∧
    ((fileHeader bo bytes).levels = 20 → (load_teximage bo env fname tex).ret = true) ∧
    ((fileHeader bo bytes).levels = 0 → (load_teximage bo env fname tex).ret = true) := by
  have hl : sizeof_Header ≤ bytes.length := by omega
  have hfull : ((fileHeader bo bytes).datadesc 0).size ≤ bytes.length - sizeof_Header := by omega
  have acc : (fileHeader bo bytes).levels ≤ 20 → (load_teximage bo env fname tex).ret = true := by
    intro h
    have hr := (hdr_rejected_eq_false_iff bo bytes hl).mpr ⟨hmagic, h, hsize⟩
    rw [load_teximage_ok bo env fname tex bytes hfile hl hr hfull]
  refine ⟨?_, fun h => acc (by omega), fun h => acc (by omega), fun h => acc (by omega)⟩
  intro h
  have hr := hdr_rejected_of_bad bo bytes hl (Or.inr (Or.inl (by omega)))
  rw [load_teximage_rejected bo env fname tex bytes hfile hl hr]

/-- C2 (counterexample): a valid file declaring width 0x80000000 loads, but the
texture's `int width` is -2147483648, not the header's 2147483648. -/
theorem load_teximage_width_not_equal :
    (file_dims [0, 0, 0, 0x80] [4, 0, 0, 0]).take 8 = COMPTEX0 ∧
    (fileHeader .little (file_dims [0, 0, 0, 0x80] [4, 0, 0, 0])).levels = 1 ∧
    ((fileHeader .little (file_dims [0, 0, 0, 0x80] [4, 0, 0, 0])).datadesc 0).size = 1 ∧
    (file_dims [0, 0, 0, 0x80] [4, 0, 0, 0]).length = 192 + 1 ∧
    (fileHeader .little (file_dims [0, 0, 0, 0x80] [4, 0, 0, 0])).width = 2147483648 ∧
    (load_teximage .little (oneFile "wide.tex" (file_dims [0, 0, 0, 0x80] [4, 0, 0, 0]))
      "wide.tex" tex_zero).ret = true ∧
    (load_teximage .little (oneFile "wide.tex" (file_dims [0, 0, 0, 0x80] [4, 0, 0, 0]))
      "wide.tex" tex_zero).tex.width = -2147483648 ∧
    (load_teximage .little (oneFile "wide.tex" (file_dims [0, 0, 0, 0x80] [4, 0, 0, 0]))
      "wide.tex" tex_zero).tex.width ≠
      ((fileHeader .little (file_dims [0, 0, 0, 0x80] [4, 0, 0, 0])).width : Int) := by
  decide

/-- C2 (amended): a file whose header has magic COMPTEX0, 1 to 20 levels and
level-0 size N > 0, followed by at least N bytes, loads; the texture's format and
size are the header's `glfmt` and N, its data are exactly the N bytes at file
offsets 192 .. 192+N-1, and its width and height are the header's fields
converted to `int` (equal to them when they are below 2^31). Nothing else of
the header is consulted. -/
theorem load_teximage_round_trip (bo : ByteOrder) (env : Env) (fname : String)
    (tex : Texture) (bytes : List Byte) (hfile : env.file fname = some bytes)
    (hmagic : bytes.take 8 = COMPTEX0)
    (hlev : 1 ≤ (fileHeader bo bytes).levels ∧ (fileHeader bo bytes).levels ≤ 20)
    (hsize : 0 < ((fileHeader bo bytes).datadesc 0).size)
    (hlen : 192 + ((fileHeader bo bytes).datadesc 0).size ≤ bytes.length) :
    (load_teximage bo env fname tex).ret = true ∧
    (load_teximage bo env fname tex).tex.width = int_of_uint32 (fileHeader bo bytes).width ∧
    (load_teximage bo env fname tex).tex.height = int_of_uint32 (fileHeader bo bytes).height ∧
    ((fileHeader bo bytes).width < 2 ^ 31 →
      (load_teximage bo env fname tex).tex.width = ((fileHeader bo bytes).width : Int)) ∧
    ((fileHeader bo bytes).height < 2 ^ 31 →
      (load_teximage bo env fname tex).tex.height = ((fileHeader bo bytes).height : Int)) ∧
    (load_teximage bo env fname tex).tex.format = (fileHeader bo bytes).glfmt ∧
    (load_teximage bo env fname tex).tex.size = ((fileHeader bo bytes).datadesc 0).size ∧
    (load_teximage bo env fname tex).tex.data =
      some ((bytes.drop 192).take ((fileHeader bo bytes).datadesc 0).size) ∧
    ((bytes.drop 192).take ((fileHeader bo bytes).datadesc 0).size).length =
      ((fileHeader bo bytes).datadesc 0).size := by
  have hl : sizeof_Header ≤ bytes.length := by simp only [sizeof_Header]; omega
  have hfull : ((fileHeader bo bytes).datadesc 0).size ≤ bytes.length - sizeof_Header := by
    simp only [sizeof_Header]; omega
  have hr := (hdr_rejected_eq_false_iff bo bytes hl).mpr ⟨hmagic, hlev.2, by omega⟩
  rw [load_teximage_ok bo env fname tex bytes hfile hl hr hfull]
  refine ⟨rfl, rfl, rfl, fun h => int_of_uint32_small _ h, fun h => int_of_uint32_small _ h,
    rfl, rfl, rfl, ?_⟩
  exact filePayload_length bo bytes hfull

/-- C2 (witness): the round-trip example of the specification. -/
theorem load_teximage_round_trip_witness :
    (load_teximage .little (oneFile "a.tex" file_roundtrip) "a.tex" tex_zero).ret = true ∧
    (load_teximage .little (oneFile "a.tex" file_roundtrip) "a.tex" tex_zero).tex =
      { id := 0, width := 512, height := 512, format := 0x83F1, size := 1024,
        data := some (List.replicate 1024 0xAB) } := by
  have h := load_teximage_round_trip .little (oneFile "a.tex" file_roundtrip) "a.tex" tex_zero
    file_roundtrip rfl (by decide) (by decide) (by decide) (by decide)
  refine ⟨h.1, ?_⟩
  decide

/-- C3: a file of at least 192 bytes whose first 8 bytes are not COMPTEX0 is
rejected: `load_teximage` returns false, leaves the texture untouched, and its
whole activity is open, one complete header read, the format message, close;
no buffer is allocated and no payload is read. -/
theorem load_teximage_bad_magic (bo : ByteOrder) (env : Env) (fname : String)
    (tex : Texture) (bytes : List Byte) (hfile : env.file fname = some bytes)
    (hlen : 192 ≤ bytes.length) (hmagic : bytes.take 8 ≠ COMPTEX0) :
    (load_teximage bo env fname tex).ret = false ∧
    (load_teximage bo env fname tex).tex = tex ∧
    (load_teximage bo env fname tex).events =
      [.fopen fname true, .fread 192 192, .eprint (msg_corrupt fname), .fclose] ∧
    allocsOf (load_teximage bo env fname tex).events = [] ∧
    freadsOf (load_teximage bo env fname tex).events = [(192, 192)] := by
  have hr := hdr_rejected_of_bad bo bytes hlen (Or.inl hmagic)
  rw [load_teximage_rejected bo env fname tex bytes hfile hlen hr]
  exact ⟨rfl, rfl, rfl, rfl, rfl⟩

/-- C3 (witness): the magic "DOMPTEX0" in an otherwise valid file. -/
theorem load_teximage_bad_magic_witness :
    (load_teximage .little (oneFile "m.tex" file_badmagic) "m.tex" tex_zero).ret = false ∧
    (load_teximage .little (oneFile "m.tex" file_badmagic) "m.tex" tex_zero).tex = tex_zero ∧
    (load_teximage .little (oneFile "m.tex" file_badmagic) "m.tex" tex_zero).events =
      [.fopen "m.tex" true, .fread 192 192, .eprint (msg_corrupt "m.tex"), .fclose] ∧
    allocsOf (load_teximage .little (oneFile "m.tex" file_badmagic) "m.tex" tex_zero).events
      = [] ∧
    freadsOf (load_teximage .little (oneFile "m.tex" file_badmagic) "m.tex" tex_zero).events
      = [(192, 192)] :=
  load_teximage_bad_magic .little (oneFile "m.tex" file_badmagic) "m.tex" tex_zero
    file_badmagic rfl (by decide) (by decide)

/-- C4: a file of at least 192 bytes whose header has `datadesc[0].size` = 0 is
rejected with the format message, whatever the other fields and the bytes after
the header are. -/
theorem load_teximage_zero_size (bo : ByteOrder) (env : Env) (fname : String)
    (tex : Texture) (bytes : List Byte) (hfile : env.file fname = some bytes)
    (hlen : 192 ≤ bytes.length) (hzero : ((fileHeader bo bytes).datadesc 0).size = 0) :
    (load_teximage bo env fname tex).ret = false ∧
    (load_teximage bo env fname tex).tex = tex ∧
    stderrOf (load_teximage bo env fname tex).events = [msg_corrupt fname] ∧
    allocsOf (load_teximage bo env fname tex).events = [] := by
  have hr := hdr_rejected_of_bad bo bytes hlen (Or.inr (Or.inr hzero))
  rw [load_teximage_rejected bo env fname tex bytes hfile hlen hr]
  exact ⟨rfl, rfl, rfl, rfl⟩

/-- C4 (witness): an otherwise valid file with `datadesc[0].size` = 0. -/
theorem load_teximage_zero_size_witness :
    (load_teximage .little (oneFile "z.tex" file_zerosize) "z.tex" tex_zero).ret = false ∧
    (load_teximage .little (oneFile "z.tex" file_zerosize) "z.tex" tex_zero).tex = tex_zero ∧
    stderrOf (load_teximage .little (oneFile "z.tex" file_zerosize) "z.tex" tex_zero).events
      = [msg_corrupt "z.tex"] ∧
    allocsOf (load_teximage .little (oneFile "z.tex" file_zerosize) "z.tex" tex_zero).events
      = [] :=
  load_teximage_zero_size .little (oneFile "z.tex" file_zerosize) "z.tex" tex_zero
    file_zerosize rfl (by decide) (by decide)

/-- C5: when the header passes the validation and declares N bytes for level 0
but fewer than N bytes follow it, `load_teximage` returns false and prints the
unexpected-EOF message; the buffer of N bytes it allocated is released again
and the caller's texture is left without data, its other fields untouched. -/
theorem load_teximage_truncated_payload (bo : ByteOrder) (env : Env) (fname : String)
    (tex : Texture) (bytes : List Byte) (hfile : env.file fname = some bytes)
    (hlen : 192 ≤ bytes.length)
    (hvalid : hdr_rejected (fileHeader bo bytes) = false)
    (hshort : bytes.length - 192 < ((fileHeader bo bytes).datadesc 0).size) :
    (load_teximage bo env fname tex).ret = false ∧
    stderrOf (load_teximage bo env fname tex).events = [msg_eof fname] ∧
    (load_teximage bo env fname tex).tex = { tex with data := none } ∧
    (load_teximage bo env fname tex).events =
      [.fopen fname true, .fread 192 192,
        .newArray ((fileHeader bo bytes).datadesc 0).size,
        .fread ((fileHeader bo bytes).datadesc 0).size (bytes.length - 192),
        .eprint (msg_eof fname), .fclose, .deleteArray] := by
  rw [load_teximage_short_payload bo env fname tex bytes hfile hlen hvalid hshort]
  exact ⟨rfl, rfl, rfl, rfl⟩

/-- C5 (witness): 1024 bytes declared, 512 supplied. -/
theorem load_teximage_truncated_payload_witness :
    (load_teximage .little (oneFile "t.tex" file_truncated) "t.tex" tex_zero).ret = false ∧
    stderrOf (load_teximage .little (oneFile "t.tex" file_truncated) "t.tex" tex_zero).events
      = ["unexpected EOF while reading texture: t.tex\n"] ∧
    (load_teximage .little (oneFile "t.tex" file_truncated) "t.tex" tex_zero).tex = tex_zero ∧
    (load_teximage .little (oneFile "t.tex" file_truncated) "t.tex" tex_zero).events =
      [.fopen "t.tex" true, .fread 192 192, .newArray 1024, .fread 1024 512,
        .eprint (msg_eof "t.tex"), .fclose, .deleteArray] :=
  load_teximage_truncated_payload .little (oneFile "t.tex" file_truncated) "t.tex" tex_zero
    file_truncated rfl (by decide) (by decide) (by decide)

/-- C9 (counterexample): a bad magic, 21 levels and a zero level-0 size, each
the only defect of its file, make `load_teximage` behave identically: same
return value, same texture, same trace, and the one message printed is the same. -/
theorem load_teximage_errors_indistinguishable :
    (file_badmagic.take 8 ≠ COMPTEX0 ∧ (fileHeader .little file_badmagic).levels = 1 ∧
      ((fileHeader .little file_badmagic).datadesc 0).size = 1) ∧
    ((file_levels [21, 0]).take 8 = COMPTEX0 ∧
      (fileHeader .little (file_levels [21, 0])).levels = 21 ∧
      ((fileHeader .little (file_levels [21, 0])).datadesc 0).size = 1) ∧
    (file_zerosize.take 8 = COMPTEX0 ∧ (fileHeader .little file_zerosize).levels = 1 ∧
      ((fileHeader .little file_zerosize).datadesc 0).size = 0) ∧
    load_teximage .little (oneFile "a.tex" file_badmagic) "a.tex" tex_zero =
      load_teximage .little (oneFile "a.tex" (file_levels [21, 0])) "a.tex" tex_zero ∧
    load_teximage .little (oneFile "a.tex" (file_levels [21, 0])) "a.tex" tex_zero =
      load_teximage .little (oneFile "a.tex" file_zerosize) "a.tex" tex_zero ∧
    stderrOf (load_teximage .little (oneFile "a.tex" file_badmagic) "a.tex" tex_zero).events =
      ["a.tex is not a compressed texture file, or is corrupted\n"] := by
  decide

/-- C9 (amended): the header tests are one condition, evaluated in the order
magic, level count, level-0 size; a full-length header with a wrong magic, more
than 20 levels or a zero level-0 size makes `load_teximage` return false and
print the single message "<file> is not a compressed texture file, or is
corrupted", the same for all three rules. -/
theorem load_teximage_format_error (bo : ByteOrder) (env : Env) (fname : String)
    (tex : Texture) (bytes : List Byte) (hfile : env.file fname = some bytes)
    (hlen : 192 ≤ bytes.length)
    (hbad : bytes.take 8 ≠ COMPTEX0 ∨ 20 < (fileHeader bo bytes).levels ∨
      ((fileHeader bo bytes).datadesc 0).size = 0) :
    (load_teximage bo env fname tex).ret = false ∧
    stderrOf (load_teximage bo env fname tex).events = [msg_corrupt fname] := by
  have hr := hdr_rejected_of_bad bo bytes hlen hbad
  rw [load_teximage_rejected bo env fname tex bytes hfile hlen hr]
  exact ⟨rfl, rfl⟩

/-- C9 (witness): 21 levels. -/
theorem load_teximage_format_error_witness :
    (load_teximage .little (oneFile "l.tex" (file_levels [21, 0])) "l.tex" tex_zero).ret
      = false ∧
    stderrOf
      (load_teximage .little (oneFile "l.tex" (file_levels [21, 0])) "l.tex" tex_zero).events
      = [msg_corrupt "l.tex"] :=
  load_teximage_format_error .little (oneFile "l.tex" (file_levels [21, 0])) "l.tex" tex_zero
    (file_levels [21, 0]) rfl (by decide) (Or.inr (Or.inl (by decide)))

/-- C10: a file that opens with fewer than 192 bytes makes `load_teximage`
return false with the header-read message after one incomplete read, whatever
the bytes are, and nothing else happens; with 192 bytes or more the header read
is complete and the validation decides: a rejected header gives the format
message, an accepted one leads on to the allocation of the payload buffer. -/
theorem load_teximage_header_length (bo : ByteOrder) (env : Env) (fname : String)
    (tex : Texture) (bytes : List Byte) (hfile : env.file fname = some bytes) :
    (bytes.length < 192 →
      (load_teximage bo env fname tex).ret = false ∧
      (load_teximage bo env fname tex).tex = tex ∧
      (load_teximage bo env fname tex).events =
        [.fopen fname true, .fread 192 bytes.length, .eprint (msg_header env fname),
          .fclose]) ∧
    (192 ≤ bytes.length →
      (freadsOf (load_teximage bo env fname tex).events).head? = some (192, 192) ∧
      (hdr_rejected (fileHeader bo bytes) = true →
        (load_teximage bo env fname tex).ret = false ∧
        stderrOf (load_teximage bo env fname tex).events = [msg_corrupt fname]) ∧
      (hdr_rejected (fileHeader bo bytes) = false →
        allocsOf (load_teximage bo env fname tex).events =
          [((fileHeader bo bytes).datadesc 0).size])) := by
  constructor
  · intro hlen
    rw [load_teximage_short_header bo env fname tex bytes hfile hlen]
    exact ⟨rfl, rfl, rfl⟩
  · intro hlen
    cases hr : hdr_rejected (fileHeader bo bytes) with
    | true =>
      rw [load_teximage_rejected bo env fname tex bytes hfile hlen hr]
      simp [freadsOf, stderrOf, sizeof_Header]
    | false =>
      by_cases hfull : ((fileHeader bo bytes).datadesc 0).size ≤ bytes.length - sizeof_Header
      · rw [load_teximage_ok bo env fname tex bytes hfile hlen hr hfull]
        simp [freadsOf, allocsOf, sizeof_Header]
      · rw [load_teximage_short_payload bo env fname tex bytes hfile hlen hr (by omega)]
        simp [freadsOf, allocsOf, sizeof_Header]

/-- C10 (witness): the first 100 bytes of a valid file. -/
theorem load_teximage_header_length_witness :
    (load_teximage .little (oneFile "h.tex" (file_roundtrip.take 100)) "h.tex" tex_zero).ret
      = false ∧
    (load_teximage .little (oneFile "h.tex" (file_roundtrip.take 100)) "h.tex" tex_zero).tex
      = tex_zero ∧
    (load_teximage .little (oneFile "h.tex" (file_roundtrip.take 100)) "h.tex" tex_zero).events
      = [.fopen "h.tex" true, .fread 192 100,
          .eprint "failed to read image file header: h.tex: Success\n",
          .fclose] :=
  (load_teximage_header_length .little (oneFile "h.tex" (file_roundtrip.take 100)) "h.tex"
    tex_zero (file_roundtrip.take 100) rfl).1 (by decide)

/-! ### `load_cubemap` -/

/-- C6: when face `i` is the first whose `load_teximage` fails, `load_cubemap`
returns 0, its uploads are exactly those of faces 0 .. i-1 in order, the files
it opens are exactly those of faces 0 .. i, and it calls `glDeleteTextures`
exactly once, on the texture name generated for this call, as its last action. -/
theorem load_cubemap_first_failure (bo : ByteOrder) (env : Env) (genId : Nat)
    (tex0 : Texture) (i : Fin 6)
    (hfirst : ∀ j : Fin 6, j < i → (load_teximage bo env (names j) tex0).ret = true)
    (hfail : (load_teximage bo env (names i) tex0).ret = false) :
    (load_cubemap bo env genId tex0).ret = 0 ∧
    uploadsOf (load_cubemap bo env genId tex0).events =
      (faces.take i.val).map (fun j => upload j (load_teximage bo env (names j) tex0).tex) ∧
    (uploadsOf (load_cubemap bo env genId tex0).events).length = i.val ∧
    openedOf (load_cubemap bo env genId tex0).events = (faces.take (i.val + 1)).map names ∧
    deletedOf (load_cubemap bo env genId tex0).events = [genId] ∧
    (load_cubemap bo env genId tex0).events.getLast? = some (.glDeleteTextures genId) := by
  obtain ⟨hsplit, hlt⟩ := faces_split i
  obtain ⟨c1, c2, c3, c4⟩ := load_cubemap_observed bo env genId tex0
  obtain ⟨r1, r2, r3, r4, r5⟩ :=
    cubemap_loop_first_failure bo env tex0 i (faces.drop (i.val + 1)) hfail (faces.take i.val)
      { tex0 with id := genId } (fun j hj => hfirst j (hlt j hj))
  rw [← hsplit] at r1 r2 r3 r4 r5
  obtain ⟨hopen, hlen⟩ := faces_take i
  refine ⟨c1.trans r1, c2.trans r2, ?_, ?_, c4.trans r4, ?_⟩
  · rw [c2, r2, List.length_map, hlen]
  · rw [c3, r3, hopen]
  · show List.getLast? (_ ++ _) = _
    rw [List.getLast?_append, r5]
    rfl

/-- C6 (witness): data/down.tex, the fourth face, fails validation; the three
faces before it were uploaded, four files were opened, the texture 7 is deleted
and 0 is returned. -/
theorem load_cubemap_first_failure_witness :
    (load_cubemap .little env_down_bad 7 tex_zero).ret = 0 ∧
    uploadsOf (load_cubemap .little env_down_bad 7 tex_zero).events =
      [.glCompressedTexImage2D 0x8515 0 0x83F1 4 4 0 1 (some [1]),
       .glCompressedTexImage2D 0x8516 0 0x83F0 8 4 0 2 (some [2, 2]),
       .glCompressedTexImage2D 0x8517 0 0x83F2 4 8 0 1 (some [3])] ∧
    (uploadsOf (load_cubemap .little env_down_bad 7 tex_zero).events).length = 3 ∧
    openedOf (load_cubemap .little env_down_bad 7 tex_zero).events =
      ["data/right.tex", "data/left.tex", "data/up.tex", "data/down.tex"] ∧
    deletedOf (load_cubemap .little env_down_bad 7 tex_zero).events = [7] ∧
    (load_cubemap .little env_down_bad 7 tex_zero).events.getLast? =
      some (.glDeleteTextures 7) :=
  load_cubemap_first_failure .little env_down_bad 7 tex_zero 3 (by decide) (by decide)

/-- C7 (counterexample): all six files load, data/right.tex declares width
0x80000000, and the width argument of the first upload is -2147483648. -/
theorem load_cubemap_width_not_equal :
    (load_cubemap .little env_wide 7 tex_zero).ret = 7 ∧
    (uploadsOf (load_cubemap .little env_wide 7 tex_zero).events).length = 6 ∧
    env_wide.file (names 0) = some (file_dims [0, 0, 0, 0x80] [4, 0, 0, 0]) ∧
    (fileHeader .little (file_dims [0, 0, 0, 0x80] [4, 0, 0, 0])).width = 2147483648 ∧
    (uploadsOf (load_cubemap .little env_wide 7 tex_zero).events).head? =
      some (.glCompressedTexImage2D 0x8515 0 0x83F1 (-2147483648) 4 0 1 (some [0xAB])) := by
  decide

/-- C7 (amended): when all six files load, `load_cubemap` returns the generated
name, opens the files in the order right, left, up, down, back, front and issues
exactly six uploads in that order; the i-th targets
GL_TEXTURE_CUBE_MAP_POSITIVE_X + i at level 0 with the format and payload of the
i-th file unchanged and with its width, height and level-0 size converted to
`int` (unchanged when they are below 2^31; each is below 2^32). -/
theorem load_cubemap_uploads (bo : ByteOrder) (env : Env) (genId : Nat) (tex0 : Texture)
    (bytes : Fin 6 → List Byte) (hfile : ∀ j, env.file (names j) = some (bytes j))
    (hok : ∀ j, (load_teximage bo env (names j) tex0).ret = true) :
    (load_cubemap bo env genId tex0).ret = genId ∧
    openedOf (load_cubemap bo env genId tex0).events =
      ["data/right.tex", "data/left.tex", "data/up.tex", "data/down.tex", "data/back.tex",
        "data/front.tex"] ∧
    uploadsOf (load_cubemap bo env genId tex0).events =
      ([0, 1, 2, 3, 4, 5] : List (Fin 6)).map (fun j =>
        Event.glCompressedTexImage2D (GL_TEXTURE_CUBE_MAP_POSITIVE_X + j.val) 0
          (fileHeader bo (bytes j)).glfmt
          (int_of_uint32 (fileHeader bo (bytes j)).width)
          (int_of_uint32 (fileHeader bo (bytes j)).height) 0
          (int_of_uint32 ((fileHeader bo (bytes j)).datadesc 0).size)
          (some ((bytes j).drop 192 |>.take ((fileHeader bo (bytes j)).datadesc 0).size))) ∧
    (∀ j, ((bytes j).drop 192 |>.take ((fileHeader bo (bytes j)).datadesc 0).size).length =
      ((fileHeader bo (bytes j)).datadesc 0).size) ∧
    (∀ j, (fileHeader bo (bytes j)).width < 2 ^ 31 →
      int_of_uint32 (fileHeader bo (bytes j)).width = ((fileHeader bo (bytes j)).width : Int)) ∧
    (∀ j, (fileHeader bo (bytes j)).height < 2 ^ 31 →
      int_of_uint32 (fileHeader bo (bytes j)).height =
        ((fileHeader bo (bytes j)).height : Int)) ∧
    (∀ j, ((fileHeader bo (bytes j)).datadesc 0).size < 2 ^ 31 →
      int_of_uint32 ((fileHeader bo (bytes j)).datadesc 0).size =
        (((fileHeader bo (bytes j)).datadesc 0).size : Int)) ∧
    (∀ j, (fileHeader bo (bytes j)).width < 2 ^ 32 ∧ (fileHeader bo (bytes j)).height < 2 ^ 32 ∧
      ((fileHeader bo (bytes j)).datadesc 0).size < 2 ^ 32) := by
  obtain ⟨c1, c2, c3, _⟩ := load_cubemap_observed bo env genId tex0
  obtain ⟨r1, r2, r3, _⟩ :=
    cubemap_loop_all_ok bo env tex0 faces { tex0 with id := genId } (fun j _ => hok j)
  have hload := fun j =>
    (upload_of_accepted bo env (names j) j tex0 (bytes j) (hfile j) (hok j)).1
  refine ⟨c1.trans r1, ?_, ?_, ?_, fun j h => int_of_uint32_small _ h,
    fun j h => int_of_uint32_small _ h, fun j h => int_of_uint32_small _ h, ?_⟩
  · rw [c3, r3]; rfl
  · rw [c2, r2]
    simp only [hload]
    rfl
  · intro j
    exact (upload_of_accepted bo env (names j) j tex0 (bytes j) (hfile j) (hok j)).2
  · intro j
    exact ⟨decodeUInt_lt bo _ 16, decodeUInt_lt bo _ 20, decodeUInt_lt bo _ (28 + 8 * 0)⟩

/-- C7 (witness): six valid faces, uploaded in the order right, left, up, down,
back, front to the targets 0x8515 .. 0x851A. -/
theorem load_cubemap_uploads_witness :
    (load_cubemap .little env_mixed 7 tex_zero).ret = 7 ∧
    openedOf (load_cubemap .little env_mixed 7 tex_zero).events =
      ["data/right.tex", "data/left.tex", "data/up.tex", "data/down.tex", "data/back.tex",
        "data/front.tex"] ∧
    uploadsOf (load_cubemap .little env_mixed 7 tex_zero).events =
      [.glCompressedTexImage2D 0x8515 0 0x83F1 4 4 0 1 (some [1]),
       .glCompressedTexImage2D 0x8516 0 0x83F0 8 4 0 2 (some [2, 2]),
       .glCompressedTexImage2D 0x8517 0 0x83F2 4 8 0 1 (some [3]),
       .glCompressedTexImage2D 0x8518 0 0x83F3 16 16 0 3 (some [4, 4, 4]),
       .glCompressedTexImage2D 0x8519 0 0x83F1 1 1 0 1 (some [5]),
       .glCompressedTexImage2D 0x851A 0 0x83F1 2 2 0 1 (some [6])] := by
  have h := load_cubemap_uploads .little env_mixed 7 tex_zero bytes_mixed (by decide)
    (by decide)
  exact ⟨h.1, h.2.1, h.2.2.1⟩

/-- C8 (counterexample): the six files of `env_tall` are each accepted by
`load_teximage` and `load_cubemap` returns the generated name 7, but
data/left.tex, which declares height 0xFFFFFFFF, is uploaded with height -1. -/
theorem load_cubemap_declared_height_not_uploaded :
    (∀ j : Fin 6, (load_teximage .little env_tall (names j) tex_zero).ret = true) ∧
    (load_cubemap .little env_tall 7 tex_zero).ret = 7 ∧
    env_tall.file (names 1) = some (file_dims [4, 0, 0, 0] [0xFF, 0xFF, 0xFF, 0xFF]) ∧
    (fileHeader .little (file_dims [4, 0, 0, 0] [0xFF, 0xFF, 0xFF, 0xFF])).height
      = 4294967295 ∧
    (uploadsOf (load_cubemap .little env_tall 7 tex_zero).events).get? 1 =
      some (.glCompressedTexImage2D 0x8516 0 0x83F1 4 (-1) 0 1 (some [0xAB])) := by
  decide

/-- C8 (amended): with a non-zero generated name, `load_cubemap` returns that name
exactly when each of the six files is accepted by `load_teximage` on its own, and
returns 0 otherwise; no file is compared with another, and when all are accepted
the i-th upload carries the format and payload of the i-th file unchanged and
its width, height and level-0 size converted to `int` (unchanged when they are
below 2^31). -/
theorem load_cubemap_success_iff (bo : ByteOrder) (env : Env) (genId : Nat) (tex0 : Texture)
    (hgen : genId ≠ 0) :
    ((load_cubemap bo env genId tex0).ret = genId ↔
      ∀ (j : Fin 6) (t : Texture), (load_teximage bo env (names j) t).ret = true) ∧
    ((load_cubemap bo env genId tex0).ret ≠ genId → (load_cubemap bo env genId tex0).ret = 0) ∧
    (∀ bytes : Fin 6 → List Byte, (∀ j, env.file (names j) = some (bytes j)) →
      (∀ (j : Fin 6) (t : Texture), (load_teximage bo env (names j) t).ret = true) →
      uploadsOf (load_cubemap bo env genId tex0).events =
        ([0, 1, 2, 3, 4, 5] : List (Fin 6)).map (fun j =>
          Event.glCompressedTexImage2D (GL_TEXTURE_CUBE_MAP_POSITIVE_X + j.val) 0
            (fileHeader bo (bytes j)).glfmt
            (int_of_uint32 (fileHeader bo (bytes j)).width)
            (int_of_uint32 (fileHeader bo (bytes j)).height) 0
            (int_of_uint32 ((fileHeader bo (bytes j)).datadesc 0).size)
            (some ((bytes j).drop 192 |>.take ((fileHeader bo (bytes j)).datadesc 0).size))) ∧
      ∀ j,
        ((fileHeader bo (bytes j)).width < 2 ^ 31 →
          int_of_uint32 (fileHeader bo (bytes j)).width =
            ((fileHeader bo (bytes j)).width : Int)) ∧
        ((fileHeader bo (bytes j)).height < 2 ^ 31 →
          int_of_uint32 (fileHeader bo (bytes j)).height =
            ((fileHeader bo (bytes j)).height : Int)) ∧
        (((fileHeader bo (bytes j)).datadesc 0).size < 2 ^ 31 →
          int_of_uint32 ((fileHeader bo (bytes j)).datadesc 0).size =
            (((fileHeader bo (bytes j)).datadesc 0).size : Int))) := by
  obtain ⟨c1, c2, _, _⟩ := load_cubemap_observed bo env genId tex0
  have hret := cubemap_loop_ret bo env tex0 faces { tex0 with id := genId }
  have hall : (faces.all (fun j => (load_teximage bo env (names j) tex0).ret) = true) ↔
      ∀ (j : Fin 6) (t : Texture), (load_teximage bo env (names j) t).ret = true := by
    rw [List.all_eq_true]
    constructor
    · intro h j t
      rw [load_teximage_ret_indep bo env (names j) t tex0]
      exact h j (mem_faces j)
    · intro h j _
      exact h j tex0
  refine ⟨?_, ?_, ?_⟩
  · rw [c1, hret, ← hall]
    constructor
    · intro h
      by_contra hn
      rw [if_neg hn] at h
      exact hgen h.symm
    · intro h
      rw [if_pos h]
  · rw [c1, hret]
    intro h
    by_cases hc : faces.all (fun j => (load_teximage bo env (names j) tex0).ret) = true
    · rw [if_pos hc] at h; exact absurd rfl h
    · rw [if_neg hc]
  · intro bytes hfile h
    obtain ⟨_, r2, _, _⟩ :=
      cubemap_loop_all_ok bo env tex0 faces { tex0 with id := genId } (fun j _ => h j tex0)
    have hload := fun j =>
      (upload_of_accepted bo env (names j) j tex0 (bytes j) (hfile j) (h j tex0)).1
    refine ⟨?_, fun j => ⟨fun hw => int_of_uint32_small _ hw,
      fun hh => int_of_uint32_small _ hh, fun hs => int_of_uint32_small _ hs⟩⟩
    rw [c2, r2]
    simp only [hload]
    rfl

/-- C8 (witness): six valid faces whose formats, widths and heights differ; the
generated name 7 is returned and each face is uploaded with its own parameters. -/
theorem load_cubemap_success_iff_witness :
    (load_cubemap .little env_mixed 7 tex_zero).ret = 7 ∧
    uploadsOf (load_cubemap .little env_mixed 7 tex_zero).events =
      [.glCompressedTexImage2D 0x8515 0 0x83F1 4 4 0 1 (some [1]),
       .glCompressedTexImage2D 0x8516 0 0x83F0 8 4 0 2 (some [2, 2]),
       .glCompressedTexImage2D 0x8517 0 0x83F2 4 8 0 1 (some [3]),
       .glCompressedTexImage2D 0x8518 0 0x83F3 16 16 0 3 (some [4, 4, 4]),
       .glCompressedTexImage2D 0x8519 0 0x83F1 1 1 0 1 (some [5]),
       .glCompressedTexImage2D 0x851A 0 0x83F1 2 2 0 1 (some [6])] := by
  have hall : ∀ (j : Fin 6) (t : Texture),
      (load_teximage .little env_mixed (names j) t).ret = true := by
    intro j t
    rw [load_teximage_ret_indep .little env_mixed (names j) t tex_zero]
    revert j
    decide
  have h := load_cubemap_success_iff .little env_mixed 7 tex_zero (by decide)
  exact ⟨h.1.mpr hall, (h.2.2 bytes_mixed (by decide) hall).1⟩

end Cubetest
